import Mathlib

/-!
Shallow embedding of the nswrap child-bootstrap engine (src/core.rs and
src/lib.rs).  Side-effecting OS calls are modelled as an event trace: each
primitive invocation (unshare, setns, file write, mount, pivot_root, …)
appends one event, and run_child is the pure function from a configuration
to the trace of primitive calls it performs plus its integer return value.
Callables are represented by their returned integers (their bodies are
opaque closures in the source).
-/

namespace Nswrap

/-- Clone/namespace flags used by core.rs (util::CloneFlags values). -/
inductive CloneFlag where
  | NEWUSER | NEWNS | NEWCGROUP | NEWUTS | NEWIPC | NEWPID | NEWNET
  deriving DecidableEq, Repr

/-- Embedding of `config::NamespaceItem`: directive for one namespace kind
(`None` / `Unshare` / `Enter(fd)`). -/
inductive NamespaceItem where
  | none
  | unshare
  | enter (fd : Int)
  deriving DecidableEq, Repr

/-- Embedding of `config::NamespaceSet`: one directive per namespace kind, as consumed by
`apply_nsenter` / `apply_unshare` in core.rs. -/
structure NamespaceSet where
  user : NamespaceItem
  mount : NamespaceItem
  cgroup : NamespaceItem
  uts : NamespaceItem
  ipc : NamespaceItem
  pid : NamespaceItem
  network : NamespaceItem
  deriving DecidableEq, Repr

/-- Embedding of `config::IdMap`: (container_id, host_id, size), all u32. -/
structure IdMap where
  container_id : Nat
  host_id : Nat
  size : Nat
  deriving DecidableEq, Repr

/-- Embedding of `config::EnvVarItem`: `Set(value)` or `Clean`. -/
inductive EnvVarItem where
  | set (val : String)
  | clean
  deriving DecidableEq, Repr

/-- Embedding of `config::Process`: executable, arguments, optional working directory,
ordered environment operations, and the empty-environment flag. -/
structure Process where
  bin : String
  args : List String
  cwd : Option String
  env : List (String × EnvVarItem)
  env_no_inheriting : Bool
  deriving DecidableEq, Repr

/-- Embedding of `config::Namespace` as accumulated by the builder (`Wrap.namespaces`):
a kind tag and an optional handle (`fd`).  The kind tag itself does not
influence `add_namespace`'s accept/panic decision, only the handle does. -/
structure NamespaceDirective where
  typ : CloneFlag
  fd : Option Int
  deriving DecidableEq, Repr

/-- One primitive OS call performed inside the child, in trace order. -/
inductive Event where
  | setnsCall (fd : Int) (flag : CloneFlag)
  | unshareCall (flag : CloneFlag)
  | writeFile (path : String) (content : String)
  | changeMountCall (path : String)
  | mountCall (source target fstype : String)
  | setCurrentDirCall (path : String)
  | createDirCall (path : String)
  | pivotRootCall (newRoot putOld : String)
  | callbackRun (ret : Int)
  | execCall (bin : String)
  deriving DecidableEq, Repr

/-- Embedding of `WrapInner` (core.rs): the configuration handed by value into the child.
`root` and `mounts` are carried by the source struct but never read by
`run_child`, and their types live in the absent config.rs; they are omitted.
Callables are represented by their return values. -/
structure WrapInner where
  process : Process
  uid_maps : List IdMap
  gid_maps : List IdMap
  callbacks : List Int
  namespace_nsenter : NamespaceSet
  namespace_unshare : NamespaceSet
  sandbox_mnt : Bool
  deriving DecidableEq, Repr

/-- Embedding of `WrapInner::apply_namespace_item`: no-op for `None`, `unshare(flag)` for
`Unshare`, `setns(fd, flag)` for `Enter(fd)`. -/
def apply_namespace_item (ns : NamespaceItem) (flag : CloneFlag) : List Event :=
  match ns with
  | .none => []
  | .unshare => [Event.unshareCall flag]
  | .enter fd => [Event.setnsCall fd flag]

/-- Embedding of `WrapInner::apply_nsenter`: applies the nsenter directive set, one kind at
a time, in the source's textual order user, mount, cgroup, uts, ipc, pid,
network. -/
def apply_nsenter (s : NamespaceSet) : List Event :=
  apply_namespace_item s.user CloneFlag.NEWUSER ++
  apply_namespace_item s.mount CloneFlag.NEWNS ++
  apply_namespace_item s.cgroup CloneFlag.NEWCGROUP ++
  apply_namespace_item s.uts CloneFlag.NEWUTS ++
  apply_namespace_item s.ipc CloneFlag.NEWIPC ++
  apply_namespace_item s.pid CloneFlag.NEWPID ++
  apply_namespace_item s.network CloneFlag.NEWNET

/-- Embedding of `WrapInner::apply_unshare`: same per-kind order over the unshare set. -/
def apply_unshare (s : NamespaceSet) : List Event :=
  apply_namespace_item s.user CloneFlag.NEWUSER ++
  apply_namespace_item s.mount CloneFlag.NEWNS ++
  apply_namespace_item s.cgroup CloneFlag.NEWCGROUP ++
  apply_namespace_item s.uts CloneFlag.NEWUTS ++
  apply_namespace_item s.ipc CloneFlag.NEWIPC ++
  apply_namespace_item s.pid CloneFlag.NEWPID ++
  apply_namespace_item s.network CloneFlag.NEWNET

/-- The file content built by `WrapInner::write_id_map`: for each entry the
line `<container_id> <host_id> <size>\n`, accumulated left to right. -/
def idMapContent (map : List IdMap) : String :=
  map.foldl
    (fun acc i =>
      acc ++ toString i.container_id ++ " " ++ toString i.host_id ++ " "
        ++ toString i.size ++ "\n")
    ""

/-- Embedding of `WrapInner::write_id_map`: one write of the accumulated content to the
given file. -/
def write_id_map (file : String) (map : List IdMap) : Event :=
  Event.writeFile file (idMapContent map)

/-- The path built by `format!("/proc/{}/uid_map", pid)`. -/
def uidMapPath (pid : Nat) : String := "/proc/" ++ toString pid ++ "/uid_map"

/-- The path built by `format!("/proc/{}/gid_map", pid)`. -/
def gidMapPath (pid : Nat) : String := "/proc/" ++ toString pid ++ "/gid_map"

/-- The path built by `format!("/proc/{}/setgroups", pid)`. -/
def setgroupsPath (pid : Nat) : String := "/proc/" ++ toString pid ++ "/setgroups"

/-- Embedding of `WrapInner::set_id_map`, with the process id (`util::get_pid()`) passed
explicitly.  The source writes `/proc/pid/uid_map` from `self.uid_maps`,
then `deny` to `/proc/pid/setgroups`, then `/proc/pid/gid_map` — from
`&self.uid_maps` (core.rs line 172 passes the uid table to the gid file). -/
def set_id_map (w : WrapInner) (pid : Nat) : List Event :=
  [ write_id_map (uidMapPath pid) w.uid_maps,
    Event.writeFile (setgroupsPath pid) "deny",
    write_id_map (gidMapPath pid) w.uid_maps ]

/-- Embedding of `WrapInner::set_up_tmpfs_cwd`: slave-rec the root mount, mount a fresh
tmpfs on `/tmp`, chdir into it, create `newroot` and `oldroot`, bind-mount
`newroot` onto itself, then `pivot_root(tmp_path, "oldroot")` — the pivot
target in the source is `tmp_path` (`"/tmp"`), not the `newroot` directory. -/
def set_up_tmpfs_cwd : List Event :=
  [ Event.changeMountCall "/",
    Event.mountCall "tmpfs" "/tmp" "tmpfs",
    Event.setCurrentDirCall "/tmp",
    Event.createDirCall "/tmp/newroot",
    Event.createDirCall "oldroot",
    Event.mountCall "newroot" "newroot" "",
    Event.pivotRootCall "/tmp" "oldroot" ]

/-- The loop body of `WrapInner::execute_callbacks`: `self.callbacks.len()`
is read once, then that many `pop_front().unwrap()()` invocations run, each
overwriting `ret`.  `fuel` is the pre-read length. -/
def execute_callbacks_go (fuel : Nat) (q : List Int) (ret : Int) :
    List Event × List Int × Int :=
  match fuel, q with
  | 0, q => ([], q, ret)
  | _ + 1, [] => ([], [], ret)
  | n + 1, c :: q' =>
      let r := execute_callbacks_go n q' c
      (Event.callbackRun c :: r.1, r.2)

/-- Embedding of `WrapInner::execute_callbacks`: drains the queue front to back, returning
the trace of invocations, the remaining queue, and the last return value
(0 if the queue was empty). -/
def execute_callbacks (callbacks : List Int) : List Event × List Int × Int :=
  execute_callbacks_go callbacks.length callbacks 0

/-- The environment table kept by `std::process::Command`: `cmd.env(k, v)`
overrides or inserts the variable `k`. -/
def envSet (e : List (String × String)) (k v : String) : List (String × String) :=
  if e.any (fun p => p.1 = k) then
    e.map (fun p => if p.1 = k then (k, v) else p)
  else
    e ++ [(k, v)]

/-- Embedding of `cmd.env_remove(k)`: the variable is removed and not inherited. -/
def envRemove (e : List (String × String)) (k : String) : List (String × String) :=
  e.filter (fun p => p.1 ≠ k)

/-- The env-var loop of `WrapInner::execute_process`: applies each
`EnvVarItem` in order on top of the base environment. -/
def applyEnvOps (base : List (String × String))
    (ops : List (String × EnvVarItem)) : List (String × String) :=
  ops.foldl
    (fun e kv =>
      match kv.2 with
      | .set v => envSet e kv.1 v
      | .clean => envRemove e kv.1)
    base

/-- The process image handed to `exec` by `WrapInner::execute_process`. -/
structure ExecImage where
  bin : String
  args : List String
  cwd : Option String
  env : List (String × String)
  deriving DecidableEq, Repr

/-- Embedding of `WrapInner::execute_process`, as the image it execs into given the
environment the child inherited.  The source contains
`if self.process.env_no_inheriting { //cmd.env_clear(); }` — the branch
body is commented out, so the flag leaves the inherited environment in
place. -/
def execute_process (p : Process) (inherited : List (String × String)) :
    ExecImage :=
  let base := if p.env_no_inheriting then inherited else inherited
  { bin := p.bin, args := p.args, cwd := p.cwd, env := applyEnvOps base p.env }

/-- Embedding of `WrapInner::run_child`, with the child's pid passed explicitly: the trace
of primitive calls in program order, and the returned exit code.  (When
`process.bin` is non-empty the source execs and the return is unreachable;
the trace records the exec call.) -/
def run_child (w : WrapInner) (pid : Nat) : List Event × Int :=
  let t_nsenter := apply_nsenter w.namespace_nsenter
  let t_unshare := apply_unshare w.namespace_unshare
  let t_idmap :=
    if w.uid_maps.length + w.gid_maps.length > 0 then set_id_map w pid else []
  let t_sandbox := if w.sandbox_mnt then set_up_tmpfs_cwd else []
  let cbs := execute_callbacks w.callbacks
  let t_exec := if w.process.bin ≠ "" then [Event.execCall w.process.bin] else []
  (t_nsenter ++ t_unshare ++ t_idmap ++ t_sandbox ++ cbs.1 ++ t_exec, cbs.2.2)

/-- Embedding of `Wrap::add_namespace` (lib.rs): if the new directive carries a handle
(`fd.is_some()`, a join) and the most recently appended directive exists but
carries no handle, the source panics (`"Method misuse!"`), modelled as
`Option.none`; otherwise the directive is pushed at the back. -/
def add_namespace (namespaces : List NamespaceDirective)
    (ns : NamespaceDirective) : Option (List NamespaceDirective) :=
  if ns.fd.isSome then
    match namespaces.getLast? with
    | some n =>
        match n.fd with
        | some _ => some (namespaces ++ [ns])
        | none => Option.none
    | Option.none => some (namespaces ++ [ns])
  else
    some (namespaces ++ [ns])

/-- Embedding of `STACK_SIZE` (core.rs): the fixed child stack size in bytes. -/
def STACK_SIZE : Nat := 122880

/-- Linux `libc::SIGCHLD`. -/
def SIGCHLD : Nat := 17

/-- The arguments `Wrap::spawn_inner` hands to `util::clone`: the stack
buffer size, the duplication flags, and the child-termination signal. -/
structure CloneArgs where
  stackSize : Nat
  flags : List CloneFlag
  exitSignal : Option Nat
  deriving DecidableEq, Repr

/-- Embedding of `Child`: holds the pid returned by the duplication primitive. -/
structure Child where
  pid : Nat
  deriving DecidableEq, Repr

/-- Embedding of `Wrap::spawn_inner`, parametrised by the outcome of the external
`util::clone` call (`ε` is the error type): records the arguments passed to
clone — a freshly allocated `[0u8; STACK_SIZE]` stack, `CloneFlags::empty()`,
`Some(libc::SIGCHLD)` — and either propagates the clone error or wraps the
returned pid in a `Child`. -/
def spawn_inner {ε : Type} (cloneResult : Except ε Nat) :
    CloneArgs × Except ε Child :=
  let args : CloneArgs :=
    { stackSize := STACK_SIZE, flags := [], exitSignal := some SIGCHLD }
  match cloneResult with
  | .ok pid => (args, .ok { pid := pid })
  | .error e => (args, .error e)

/-- Embedding of `nix::sys::wait::WaitStatus`, the raw OS wait result wrapped by
`ExitStatus`. -/
inductive WaitStatus where
  | exited (pid : Nat) (code : Int)
  | signaled (pid : Nat) (signal : Nat) (coreDumped : Bool)
  | stopped (pid : Nat) (signal : Nat)
  | ptraceEvent (pid : Nat) (signal : Nat) (event : Int)
  | ptraceSyscall (pid : Nat)
  | continued (pid : Nat)
  | stillAlive
  deriving DecidableEq, Repr

/-- Embedding of `ExitStatus::code` (lib.rs): `Some(ret)` for `Exited(_, ret)`, `None`
for every other status shape. -/
def ExitStatus.code (s : WaitStatus) : Option Int :=
  match s with
  | .exited _ ret => some ret
  | _ => Option.none

/-- Embedding of `Wrap::unshare` (lib.rs): appends a create-type directive
(no handle). -/
def builder_unshare (l : List NamespaceDirective) (typ : CloneFlag) :
    Option (List NamespaceDirective) :=
  add_namespace l { typ := typ, fd := Option.none }

/-- Embedding of `Wrap::nsenter` (lib.rs): appends a join-type directive
carrying the handle. -/
def builder_nsenter (l : List NamespaceDirective) (typ : CloneFlag)
    (pidfd : Int) : Option (List NamespaceDirective) :=
  add_namespace l { typ := typ, fd := some pidfd }

/-- Tests whether an event is a write to the given file path. -/
def Event.isWriteTo (path : String) : Event → Bool
  | .writeFile p _ => p == path
  | _ => false

/-- Tests whether an event is a pivot_root invocation. -/
def Event.isPivot : Event → Bool
  | .pivotRootCall _ _ => true
  | _ => false

/-- Tests whether an event is a callable invocation. -/
def Event.isCallbackRun : Event → Bool
  | .callbackRun _ => true
  | _ => false

/-- Position of the first event satisfying the predicate. -/
def firstIdx (p : Event → Bool) : List Event → Option Nat
  | [] => Option.none
  | e :: tr => if p e then some 0 else (firstIdx p tr).map (· + 1)

/-- Content of the first write to the given path in a trace. -/
def writeContentAt (path : String) : List Event → Option String
  | [] => Option.none
  | Event.writeFile p c :: tr =>
      if p = path then some c else writeContentAt path tr
  | _ :: tr => writeContentAt path tr

/-- Distinct fixed suffixes make distinct `/proc/<pid>/...` paths. -/
theorem proc_path_ne (pid : Nat) (a b : String) (h : a.data ≠ b.data) :
    ("/proc/" ++ toString pid ++ a) ≠ ("/proc/" ++ toString pid ++ b) := by
  intro he
  apply h
  have hd := congrArg String.data he
  rw [String.data_append, String.data_append, String.data_append,
    String.data_append] at hd
  exact List.append_cancel_left hd

theorem uidMapPath_ne_setgroupsPath (pid : Nat) :
    uidMapPath pid ≠ setgroupsPath pid :=
  proc_path_ne pid "/uid_map" "/setgroups" (by decide)

theorem gidMapPath_ne_uidMapPath (pid : Nat) :
    gidMapPath pid ≠ uidMapPath pid :=
  proc_path_ne pid "/gid_map" "/uid_map" (by decide)

theorem gidMapPath_ne_setgroupsPath (pid : Nat) :
    gidMapPath pid ≠ setgroupsPath pid :=
  proc_path_ne pid "/gid_map" "/setgroups" (by decide)

/-- C10.  `ExitStatus::code` returns `Some c` exactly for a normal exit with
code `c`, and `None` for signaled, stopped and continued statuses — it never
builds an exit code out of a signal number. -/
theorem exitStatus_code_iff_exited (s : WaitStatus) (c : Int) (p sig : Nat)
    (cd : Bool) :
    (ExitStatus.code s = some c ↔ ∃ q, s = WaitStatus.exited q c) ∧
    ExitStatus.code (WaitStatus.signaled p sig cd) = Option.none ∧
    ExitStatus.code (WaitStatus.stopped p sig) = Option.none ∧
    ExitStatus.code (WaitStatus.continued p) = Option.none := by
  refine ⟨?_, rfl, rfl, rfl⟩
  cases s <;> simp [ExitStatus.code]

/-- C9.  `spawn_inner` invokes the duplication primitive with empty flags,
`SIGCHLD`, and a stack of exactly `STACK_SIZE = 122880` bytes; a clone error
is propagated unchanged, and on success the `Child` holds exactly the pid the
primitive returned. -/
theorem spawn_inner_clone_args {ε : Type} (res : Except ε Nat) :
    (spawn_inner res).1 =
      { stackSize := 122880, flags := [], exitSignal := some SIGCHLD } ∧
    (spawn_inner res).1.stackSize = STACK_SIZE ∧
    (∀ e, res = Except.error e → (spawn_inner res).2 = Except.error e) ∧
    (∀ p, res = Except.ok p → (spawn_inner res).2 = Except.ok { pid := p }) := by
  cases res <;>
    simp [spawn_inner, STACK_SIZE]

theorem spawn_inner_clone_args_witness :
    (spawn_inner (Except.ok 42 : Except Unit Nat)).2 = Except.ok { pid := 42 } ∧
    (spawn_inner (Except.error () : Except Unit Nat)).2 = Except.error () :=
  ⟨(spawn_inner_clone_args (Except.ok 42)).2.2.2 42 rfl,
   (spawn_inner_clone_args (Except.error ())).2.2.1 () rfl⟩

/-- C4.  `add_namespace` always accepts a create-type directive (no handle);
it accepts a join-type directive (with handle) when the list is empty or the
most recently appended directive also carries a handle, and panics (modelled
as `Option.none`) when the most recent directive carries no handle. -/
theorem add_namespace_join_contiguity (l : List NamespaceDirective)
    (ns : NamespaceDirective) :
    (ns.fd = Option.none → add_namespace l ns = some (l ++ [ns])) ∧
    (ns.fd.isSome → l = [] → add_namespace l ns = some (l ++ [ns])) ∧
    (ns.fd.isSome → ∀ m, l.getLast? = some m → m.fd.isSome →
      add_namespace l ns = some (l ++ [ns])) ∧
    (ns.fd.isSome → ∀ m, l.getLast? = some m → m.fd = Option.none →
      add_namespace l ns = Option.none) ∧
    (∀ typ, builder_unshare l typ =
      some (l ++ [{ typ := typ, fd := Option.none }])) := by
  refine ⟨?_, ?_, ?_, ?_, ?_⟩
  · intro h
    simp [add_namespace, h]
  · intro h hl
    subst hl
    simp [add_namespace, h]
  · intro h m hm hfd
    obtain ⟨fd, hfd⟩ := Option.isSome_iff_exists.mp hfd
    simp [add_namespace, h, hm, hfd]
  · intro h m hm hfd
    simp [add_namespace, h, hm, hfd]
  · intro typ
    simp [builder_unshare, add_namespace]

theorem add_namespace_join_contiguity_witness :
    add_namespace [{ typ := CloneFlag.NEWUSER, fd := Option.none }]
        { typ := CloneFlag.NEWNS, fd := some 114 } = Option.none ∧
    add_namespace ([] : List NamespaceDirective)
        { typ := CloneFlag.NEWNS, fd := some 3 } =
      some [{ typ := CloneFlag.NEWNS, fd := some 3 }] ∧
    add_namespace [{ typ := CloneFlag.NEWUSER, fd := some 3 }]
        { typ := CloneFlag.NEWNS, fd := some 4 } =
      some [{ typ := CloneFlag.NEWUSER, fd := some 3 },
            { typ := CloneFlag.NEWNS, fd := some 4 }] :=
  ⟨(add_namespace_join_contiguity _ _).2.2.2.1 (by decide)
      { typ := CloneFlag.NEWUSER, fd := Option.none } (by decide) (by decide),
   (add_namespace_join_contiguity _ _).2.1 (by decide) rfl,
   (add_namespace_join_contiguity _ _).2.2.1 (by decide)
      { typ := CloneFlag.NEWUSER, fd := some 3 } (by decide) (by decide)⟩

/-- A namespace set with every directive left as `None`. -/
def nsAllNone : NamespaceSet :=
  { user := NamespaceItem.none, mount := NamespaceItem.none,
    cgroup := NamespaceItem.none, uts := NamespaceItem.none,
    ipc := NamespaceItem.none, pid := NamespaceItem.none,
    network := NamespaceItem.none }

/-- A process spec with no executable and everything defaulted. -/
def procEmpty : Process :=
  { bin := "", args := [], cwd := Option.none, env := [],
    env_no_inheriting := false }

/-- Concrete configuration exercising the Identity Mapper: one uid entry and
one gid entry. -/
def wC1 : WrapInner :=
  { process := procEmpty,
    uid_maps := [{ container_id := 0, host_id := 1000, size := 1 }],
    gid_maps := [{ container_id := 0, host_id := 1000, size := 1 }],
    callbacks := [], namespace_nsenter := nsAllNone,
    namespace_unshare := nsAllNone, sandbox_mnt := false }

/-- The write order C1 asserts of `set_id_map`: the setgroups write comes
first, then the uid-map write, then the gid-map write. -/
def claimC1Order (w : WrapInner) (pid : Nat) : Prop :=
  ∃ i j k,
    firstIdx (Event.isWriteTo (setgroupsPath pid)) (set_id_map w pid) = some i ∧
    firstIdx (Event.isWriteTo (uidMapPath pid)) (set_id_map w pid) = some j ∧
    firstIdx (Event.isWriteTo (gidMapPath pid)) (set_id_map w pid) = some k ∧
    i < j ∧ j < k

/-- C1 counterexample.  On a configuration with one uid-map and one gid-map
entry, `set_id_map` does not write the setgroups file first: the uid-map
write precedes the setgroups write. -/
theorem set_id_map_order_cex : ¬ claimC1Order wC1 1 := by
  rintro ⟨i, j, k, hi, hj, _, hij, _⟩
  have hi2 : firstIdx (Event.isWriteTo (setgroupsPath 1)) (set_id_map wC1 1) =
      some 1 := by decide
  have hj2 : firstIdx (Event.isWriteTo (uidMapPath 1)) (set_id_map wC1 1) =
      some 0 := by decide
  rw [hi2] at hi
  rw [hj2] at hj
  cases hi
  cases hj
  omega

/-- C1 amended.  When the Identity Mapper runs, its three writes occur in the
order: uid-map file first, then `deny` to the setgroups control file, then
the gid-map file; in particular the setgroups write strictly precedes the
gid-map write. -/
theorem set_id_map_write_order (w : WrapInner) (pid : Nat)
    (_h : 0 < w.uid_maps.length + w.gid_maps.length) :
    firstIdx (Event.isWriteTo (uidMapPath pid)) (set_id_map w pid) = some 0 ∧
    firstIdx (Event.isWriteTo (setgroupsPath pid)) (set_id_map w pid) = some 1 ∧
    firstIdx (Event.isWriteTo (gidMapPath pid)) (set_id_map w pid) = some 2 := by
  have h1 : (uidMapPath pid == setgroupsPath pid) = false :=
    beq_eq_false_iff_ne.mpr (uidMapPath_ne_setgroupsPath pid)
  have h2 : (uidMapPath pid == gidMapPath pid) = false :=
    beq_eq_false_iff_ne.mpr (gidMapPath_ne_uidMapPath pid).symm
  have h3 : (setgroupsPath pid == gidMapPath pid) = false :=
    beq_eq_false_iff_ne.mpr (gidMapPath_ne_setgroupsPath pid).symm
  refine ⟨?_, ?_, ?_⟩ <;>
    simp [set_id_map, write_id_map, firstIdx, Event.isWriteTo, h1, h2, h3]

theorem set_id_map_write_order_witness :
    0 < wC1.uid_maps.length + wC1.gid_maps.length ∧
    (firstIdx (Event.isWriteTo (uidMapPath 1)) (set_id_map wC1 1) = some 0 ∧
     firstIdx (Event.isWriteTo (setgroupsPath 1)) (set_id_map wC1 1) = some 1 ∧
     firstIdx (Event.isWriteTo (gidMapPath 1)) (set_id_map wC1 1) = some 2) :=
  ⟨by decide, set_id_map_write_order wC1 1 (by decide)⟩

/-- Concrete configuration whose uid and gid tables differ, exposing which
table feeds the gid-map file. -/
def wC2 : WrapInner :=
  { process := procEmpty,
    uid_maps := [{ container_id := 0, host_id := 1000, size := 1 }],
    gid_maps := [{ container_id := 5, host_id := 6, size := 7 }],
    callbacks := [], namespace_nsenter := nsAllNone,
    namespace_unshare := nsAllNone, sandbox_mnt := false }

/-- C2.  The code writes the uid-map table's lines into the gid-map file
(core.rs line 172 passes `&self.uid_maps`): on a configuration whose gid
table is `[(5, 6, 7)]`, the gid-map file receives `0 1000 1\n` — the uid
table's line — not `5 6 7\n`.  The uid-map file does receive the uid table's
lines as the claim states. -/
theorem gid_map_written_from_uid_table :
    writeContentAt (gidMapPath 1) (set_id_map wC2 1) =
      some (idMapContent wC2.uid_maps) ∧
    idMapContent wC2.uid_maps = "0 1000 1\n" ∧
    idMapContent wC2.gid_maps = "5 6 7\n" ∧
    writeContentAt (gidMapPath 1) (set_id_map wC2 1) ≠
      some (idMapContent wC2.gid_maps) ∧
    writeContentAt (uidMapPath 1) (set_id_map wC2 1) =
      some (idMapContent wC2.uid_maps) := by
  refine ⟨by decide, by decide, by decide, by decide, by decide⟩

/-- The pivot C7 asserts of the Sandbox Root Builder: the pivot target is the
new-root directory (as an absolute path or relative to the scratch cwd). -/
def claimC7Pivot : Prop :=
  Event.pivotRootCall "/tmp/newroot" "oldroot" ∈ set_up_tmpfs_cwd ∨
  Event.pivotRootCall "newroot" "oldroot" ∈ set_up_tmpfs_cwd

/-- C7 counterexample.  The only pivot_root invocation in the Sandbox Root
Builder targets `"/tmp"` — the tmpfs scratch mount itself — not the
`newroot` subdirectory created for the purpose. -/
theorem tmpfs_pivot_target_cex :
    ¬ claimC7Pivot ∧
    set_up_tmpfs_cwd.filter Event.isPivot =
      [Event.pivotRootCall "/tmp" "oldroot"] := by
  constructor
  · intro h
    rcases h with h | h <;> revert h <;> decide
  · decide

/-- C7 amended.  After mounting the fresh tmpfs on `/tmp`, creating the
`newroot` and `oldroot` subdirectories, and bind-mounting `newroot` onto
itself, the builder pivots the process's root to the tmpfs scratch mount
`/tmp` (under which the new-root directory lives), relocating the old root
under the retained `oldroot` path; the pivot is the final step. -/
theorem tmpfs_pivot_after_setup :
    set_up_tmpfs_cwd[1]? = some (Event.mountCall "tmpfs" "/tmp" "tmpfs") ∧
    set_up_tmpfs_cwd[3]? = some (Event.createDirCall "/tmp/newroot") ∧
    set_up_tmpfs_cwd[4]? = some (Event.createDirCall "oldroot") ∧
    set_up_tmpfs_cwd[5]? = some (Event.mountCall "newroot" "newroot" "") ∧
    set_up_tmpfs_cwd[6]? = some (Event.pivotRootCall "/tmp" "oldroot") ∧
    set_up_tmpfs_cwd.length = 7 ∧
    firstIdx Event.isPivot set_up_tmpfs_cwd = some 6 := by
  decide

/-- A process spec requesting an empty starting environment, with an
executable named and no environment operations. -/
def pC8 : Process :=
  { bin := "/bin/true", args := [], cwd := Option.none, env := [],
    env_no_inheriting := true }

/-- C8.  The `env_no_inheriting` branch of `execute_process` has an empty
body (`cmd.env_clear()` is commented out in core.rs), so with the flag set
and no `Set` operations the execed image still carries the inherited
environment instead of an empty one. -/
theorem env_no_inheriting_ignored :
    pC8.env_no_inheriting = true ∧
    pC8.bin ≠ "" ∧
    (execute_process pC8 [("PATH", "/bin")]).env = [("PATH", "/bin")] ∧
    (execute_process pC8 [("PATH", "/bin")]).env ≠ [] := by
  refine ⟨by decide, by decide, by decide, by decide⟩

theorem execute_callbacks_go_eq (q : List Int) (ret : Int) :
    execute_callbacks_go q.length q ret =
      (q.map Event.callbackRun, [], q.getLastD ret) := by
  induction q generalizing ret with
  | nil => rfl
  | cons c q ih =>
      rw [List.getLastD_cons]
      simp only [List.length_cons, execute_callbacks_go, ih c, List.map_cons]

theorem execute_callbacks_eq (q : List Int) :
    execute_callbacks q = (q.map Event.callbackRun, [], q.getLastD 0) :=
  execute_callbacks_go_eq q 0

/-- Both per-kind appliers are textually the same function of the set. -/
theorem apply_unshare_eq_apply_nsenter (s : NamespaceSet) :
    apply_unshare s = apply_nsenter s := rfl

theorem not_isCallbackRun_apply_namespace_item (n : NamespaceItem)
    (f : CloneFlag) :
    ∀ e ∈ apply_namespace_item n f, ¬ (Event.isCallbackRun e = true) := by
  cases n <;> simp [apply_namespace_item, Event.isCallbackRun]

theorem filter_isCallbackRun_apply_nsenter (s : NamespaceSet) :
    (apply_nsenter s).filter Event.isCallbackRun = [] := by
  simp only [apply_nsenter, List.filter_append, List.append_eq_nil]
  refine ⟨⟨⟨⟨⟨⟨?_, ?_⟩, ?_⟩, ?_⟩, ?_⟩, ?_⟩, ?_⟩ <;>
    exact List.filter_eq_nil_iff.mpr
      (not_isCallbackRun_apply_namespace_item _ _)

theorem filter_isCallbackRun_set_id_map (w : WrapInner) (pid : Nat) :
    (set_id_map w pid).filter Event.isCallbackRun = [] := by
  simp [set_id_map, write_id_map, List.filter, Event.isCallbackRun]

theorem filter_isCallbackRun_sandbox :
    set_up_tmpfs_cwd.filter Event.isCallbackRun = [] := by decide

theorem filter_isCallbackRun_map (q : List Int) :
    (q.map Event.callbackRun).filter Event.isCallbackRun =
      q.map Event.callbackRun := by
  induction q with
  | nil => rfl
  | cons c q ih => simp [List.filter_cons, Event.isCallbackRun, ih]

/-- C3.  With no executable set, the bootstrap routine returns the value of
the last callable (0 for an empty queue); the callables are invoked front to
back in queue order, and the queue is left fully drained. -/
theorem run_child_callbacks (w : WrapInner) (pid : Nat)
    (h : w.process.bin = "") :
    (run_child w pid).2 = w.callbacks.getLastD 0 ∧
    (run_child w pid).1.filter Event.isCallbackRun =
      w.callbacks.map Event.callbackRun ∧
    (execute_callbacks w.callbacks).2.1 = [] := by
  refine ⟨?_, ?_, ?_⟩
  · simp [run_child, execute_callbacks_eq]
  · simp only [run_child, execute_callbacks_eq, List.filter_append]
    rw [filter_isCallbackRun_apply_nsenter,
      apply_unshare_eq_apply_nsenter, filter_isCallbackRun_apply_nsenter,
      filter_isCallbackRun_map]
    have h2 : (if 0 < w.uid_maps.length + w.gid_maps.length
        then set_id_map w pid else []).filter Event.isCallbackRun = [] := by
      split
      · exact filter_isCallbackRun_set_id_map w pid
      · rfl
    have h3 : (if w.sandbox_mnt then set_up_tmpfs_cwd else []).filter
        Event.isCallbackRun = [] := by
      split
      · exact filter_isCallbackRun_sandbox
      · rfl
    rw [h2, h3]
    simp [h]
  · simp [execute_callbacks_eq]

/-- Concrete configuration with three callables and no executable. -/
def wC3 : WrapInner :=
  { process := procEmpty, uid_maps := [], gid_maps := [],
    callbacks := [7, -2, 16], namespace_nsenter := nsAllNone,
    namespace_unshare := nsAllNone, sandbox_mnt := false }

theorem run_child_callbacks_witness :
    wC3.process.bin = "" ∧
    ((run_child wC3 1).2 = wC3.callbacks.getLastD 0 ∧
     (run_child wC3 1).1.filter Event.isCallbackRun =
       wC3.callbacks.map Event.callbackRun ∧
     (execute_callbacks wC3.callbacks).2.1 = []) ∧
    wC3.callbacks.getLastD 0 = 16 :=
  ⟨rfl, run_child_callbacks wC3 1 rfl, by decide⟩

/-- The seven namespace kinds, in the documented application order. -/
inductive NamespaceKind where
  | user | mount | cgroup | uts | ipc | pid | network
  deriving DecidableEq, Repr

/-- The fixed, documented kind order of the spec: User, Mount, Cgroup, Uts,
Ipc, Pid, Network. -/
def kindOrder : List NamespaceKind :=
  [NamespaceKind.user, NamespaceKind.mount, NamespaceKind.cgroup,
   NamespaceKind.uts, NamespaceKind.ipc, NamespaceKind.pid,
   NamespaceKind.network]

/-- The clone flag belonging to each namespace kind. -/
def NamespaceKind.flag : NamespaceKind → CloneFlag
  | .user => CloneFlag.NEWUSER
  | .mount => CloneFlag.NEWNS
  | .cgroup => CloneFlag.NEWCGROUP
  | .uts => CloneFlag.NEWUTS
  | .ipc => CloneFlag.NEWIPC
  | .pid => CloneFlag.NEWPID
  | .network => CloneFlag.NEWNET

/-- The directive a set stores for a given kind. -/
def NamespaceSet.get (s : NamespaceSet) : NamespaceKind → NamespaceItem
  | .user => s.user
  | .mount => s.mount
  | .cgroup => s.cgroup
  | .uts => s.uts
  | .ipc => s.ipc
  | .pid => s.pid
  | .network => s.network

/-- Spec-side applier for one directive, written from the spec's words: a
None directive applies no operation, a Create directive invokes the
namespace-create primitive with the kind's flag, and a Join directive
invokes the namespace-switch primitive with the stored handle and the
kind's flag. -/
def specApplyItem (n : NamespaceItem) (k : NamespaceKind) : List Event :=
  match n with
  | .none => []
  | .unshare => [Event.unshareCall k.flag]
  | .enter fd => [Event.setnsCall fd k.flag]

/-- Spec-side phase applier: the stored directives applied kind by kind in
the fixed documented order. -/
def specApplyPhase (s : NamespaceSet) : List Event :=
  (kindOrder.map (fun k => specApplyItem (s.get k) k)).flatten

theorem specApplyItem_eq (n : NamespaceItem) (k : NamespaceKind) :
    specApplyItem n k = apply_namespace_item n k.flag := by
  cases n <;> rfl

/-- C6.  Within each phase the directives are applied kind by kind in the
fixed order User, Mount, Cgroup, Uts, Ipc, Pid, Network — both source
appliers coincide with the spec-side applier — and each directive maps to
the right primitive: None to nothing, Create to the namespace-create
primitive with the kind's flag, Join to the namespace-switch primitive with
the stored handle and the kind's flag. -/
theorem apply_phase_follows_kind_order (s : NamespaceSet) :
    apply_nsenter s = specApplyPhase s ∧
    apply_unshare s = specApplyPhase s ∧
    (∀ f, apply_namespace_item NamespaceItem.none f = []) ∧
    (∀ f, apply_namespace_item NamespaceItem.unshare f =
      [Event.unshareCall f]) ∧
    (∀ f fd, apply_namespace_item (NamespaceItem.enter fd) f =
      [Event.setnsCall fd f]) := by
  refine ⟨?_, ?_, fun f => rfl, fun f => rfl, fun f fd => rfl⟩ <;>
    simp [apply_nsenter, apply_unshare, specApplyPhase, kindOrder,
      specApplyItem_eq, NamespaceSet.get, NamespaceKind.flag,
      List.append_assoc]

/-- Bootstrap phase number of an event: 0 join, 1 create, 2 identity
mapping, 3 sandbox root, 4 callables, 5 exec. -/
def eventPhase : Event → Nat
  | .setnsCall _ _ => 0
  | .unshareCall _ => 1
  | .writeFile _ _ => 2
  | .changeMountCall _ => 3
  | .mountCall _ _ _ => 3
  | .setCurrentDirCall _ => 3
  | .createDirCall _ => 3
  | .pivotRootCall _ _ => 3
  | .callbackRun _ => 4
  | .execCall _ => 5

/-- The seven stored directives of a set, in application order. -/
def NamespaceSet.items (s : NamespaceSet) : List NamespaceItem :=
  [s.user, s.mount, s.cgroup, s.uts, s.ipc, s.pid, s.network]

/-- Tests whether a directive is a join (`Enter`). -/
def NamespaceItem.isEnter : NamespaceItem → Bool
  | .enter _ => true
  | _ => false

/-- A set holding only join-phase directives (no `Unshare`), as the launch
glue populates `namespace_nsenter`. -/
def joinOnly (s : NamespaceSet) : Prop :=
  ∀ i ∈ s.items, i ≠ NamespaceItem.unshare

/-- A set holding only create-phase directives (no `Enter`), as the launch
glue populates `namespace_unshare`. -/
def createOnly (s : NamespaceSet) : Prop :=
  ∀ i ∈ s.items, i.isEnter = false

instance (s : NamespaceSet) : Decidable (joinOnly s) := by
  unfold joinOnly
  infer_instance

instance (s : NamespaceSet) : Decidable (createOnly s) := by
  unfold createOnly
  infer_instance

theorem phase_item_join {n : NamespaceItem} (f : CloneFlag)
    (hn : n ≠ NamespaceItem.unshare) :
    ∀ e ∈ apply_namespace_item n f, eventPhase e = 0 := by
  cases n with
  | none => simp [apply_namespace_item]
  | unshare => exact absurd rfl hn
  | enter fd => simp [apply_namespace_item, eventPhase]

theorem phase_item_create {n : NamespaceItem} (f : CloneFlag)
    (hn : n.isEnter = false) :
    ∀ e ∈ apply_namespace_item n f, eventPhase e = 1 := by
  cases n with
  | none => simp [apply_namespace_item]
  | unshare => simp [apply_namespace_item, eventPhase]
  | enter fd => simp [NamespaceItem.isEnter] at hn

theorem phase_apply_nsenter {s : NamespaceSet} (hs : joinOnly s) :
    ∀ e ∈ apply_nsenter s, eventPhase e = 0 := by
  have hu := hs s.user (by simp [NamespaceSet.items])
  have hm := hs s.mount (by simp [NamespaceSet.items])
  have hc := hs s.cgroup (by simp [NamespaceSet.items])
  have ht := hs s.uts (by simp [NamespaceSet.items])
  have hi := hs s.ipc (by simp [NamespaceSet.items])
  have hp := hs s.pid (by simp [NamespaceSet.items])
  have hn := hs s.network (by simp [NamespaceSet.items])
  intro e he
  simp only [apply_nsenter, List.mem_append] at he
  rcases he with ((((((h | h) | h) | h) | h) | h) | h)
  exacts [phase_item_join _ hu e h, phase_item_join _ hm e h,
    phase_item_join _ hc e h, phase_item_join _ ht e h,
    phase_item_join _ hi e h, phase_item_join _ hp e h,
    phase_item_join _ hn e h]

theorem phase_apply_unshare {s : NamespaceSet} (hs : createOnly s) :
    ∀ e ∈ apply_unshare s, eventPhase e = 1 := by
  have hu := hs s.user (by simp [NamespaceSet.items])
  have hm := hs s.mount (by simp [NamespaceSet.items])
  have hc := hs s.cgroup (by simp [NamespaceSet.items])
  have ht := hs s.uts (by simp [NamespaceSet.items])
  have hi := hs s.ipc (by simp [NamespaceSet.items])
  have hp := hs s.pid (by simp [NamespaceSet.items])
  have hn := hs s.network (by simp [NamespaceSet.items])
  intro e he
  simp only [apply_unshare, List.mem_append] at he
  rcases he with ((((((h | h) | h) | h) | h) | h) | h)
  exacts [phase_item_create _ hu e h, phase_item_create _ hm e h,
    phase_item_create _ hc e h, phase_item_create _ ht e h,
    phase_item_create _ hi e h, phase_item_create _ hp e h,
    phase_item_create _ hn e h]

theorem phase_set_id_map (w : WrapInner) (pid : Nat) :
    ∀ e ∈ set_id_map w pid, eventPhase e = 2 := by
  intro e he
  simp only [set_id_map, write_id_map, List.mem_cons,
    List.not_mem_nil, or_false] at he
  rcases he with rfl | rfl | rfl <;> rfl

theorem phase_sandbox : ∀ e ∈ set_up_tmpfs_cwd, eventPhase e = 3 := by
  decide

theorem phase_callbacks (q : List Int) :
    ∀ e ∈ q.map Event.callbackRun, eventPhase e = 4 := by
  intro e he
  simp only [List.mem_map] at he
  obtain ⟨c, _, rfl⟩ := he
  rfl

theorem phase_ite {c : Prop} [Decidable c] {l : List Event} {k : Nat}
    (h : ∀ e ∈ l, eventPhase e = k) :
    ∀ e ∈ (if c then l else []), eventPhase e = k := by
  split
  · exact h
  · simp

theorem phase_le_of_eq {l : List Event} {c k : Nat}
    (h : ∀ e ∈ l, eventPhase e = c) (hck : c ≤ k) :
    ∀ e ∈ l, eventPhase e ≤ k :=
  fun e he => (h e he) ▸ hck

theorem phase_ge_of_eq {l : List Event} {c k : Nat}
    (h : ∀ e ∈ l, eventPhase e = c) (hkc : k ≤ c) :
    ∀ e ∈ l, k ≤ eventPhase e :=
  fun e he => (h e he) ▸ hkc

theorem phase_le_append {l₁ l₂ : List Event} {k : Nat}
    (h1 : ∀ e ∈ l₁, eventPhase e ≤ k) (h2 : ∀ e ∈ l₂, eventPhase e ≤ k) :
    ∀ e ∈ l₁ ++ l₂, eventPhase e ≤ k := by
  intro e he
  rcases List.mem_append.mp he with h | h
  exacts [h1 e h, h2 e h]

theorem pairwise_phase_const {l : List Event} {c : Nat}
    (h : ∀ e ∈ l, eventPhase e = c) :
    l.Pairwise (fun a b => eventPhase a ≤ eventPhase b) :=
  List.pairwise_of_forall_mem_list fun a ha b hb => by
    rw [h a ha, h b hb]

theorem pairwise_phase_append {l₁ l₂ : List Event} (k : Nat)
    (h1 : ∀ e ∈ l₁, eventPhase e ≤ k) (h2 : ∀ e ∈ l₂, k ≤ eventPhase e)
    (p1 : l₁.Pairwise (fun a b => eventPhase a ≤ eventPhase b))
    (p2 : l₂.Pairwise (fun a b => eventPhase a ≤ eventPhase b)) :
    (l₁ ++ l₂).Pairwise (fun a b => eventPhase a ≤ eventPhase b) := by
  rw [List.pairwise_append]
  exact ⟨p1, p2, fun a ha b hb => le_trans (h1 a ha) (h2 b hb)⟩

/-- The trace of `run_child`, written out as the six fixed segments. -/
theorem run_child_fst (w : WrapInner) (pid : Nat) :
    (run_child w pid).1 =
      apply_nsenter w.namespace_nsenter ++
      apply_unshare w.namespace_unshare ++
      (if w.uid_maps.length + w.gid_maps.length > 0
        then set_id_map w pid else []) ++
      (if w.sandbox_mnt then set_up_tmpfs_cwd else []) ++
      w.callbacks.map Event.callbackRun ++
      (if w.process.bin ≠ "" then [Event.execCall w.process.bin] else []) := by
  simp [run_child, execute_callbacks_eq]

/-- The return value of `run_child` is the retained callable result. -/
theorem run_child_snd (w : WrapInner) (pid : Nat) :
    (run_child w pid).2 = w.callbacks.getLastD 0 := by
  simp [run_child, execute_callbacks_eq]

/-- C5.  `run_child` performs its steps in the fixed order join phase,
create phase, identity mapping, sandbox root, callables, exec: along the
trace the phase numbers never decrease; identity-mapping events occur iff
the combined uid/gid tables are non-empty; sandbox events occur iff the
sandbox flag is set; an exec event occurs iff the executable path is
non-empty; and with no executable the routine returns the retained callable
result. -/
theorem run_child_step_order (w : WrapInner) (pid : Nat)
    (hj : joinOnly w.namespace_nsenter) (hcr : createOnly w.namespace_unshare) :
    (run_child w pid).1.Pairwise (fun a b => eventPhase a ≤ eventPhase b) ∧
    ((∃ e ∈ (run_child w pid).1, eventPhase e = 2) ↔
      0 < w.uid_maps.length + w.gid_maps.length) ∧
    ((∃ e ∈ (run_child w pid).1, eventPhase e = 3) ↔ w.sandbox_mnt = true) ∧
    ((∃ e ∈ (run_child w pid).1, eventPhase e = 5) ↔ w.process.bin ≠ "") ∧
    (w.process.bin = "" → (run_child w pid).2 = w.callbacks.getLastD 0) := by
  have h0 := phase_apply_nsenter hj
  have h1 := phase_apply_unshare hcr
  have h2 : ∀ e ∈ (if w.uid_maps.length + w.gid_maps.length > 0
      then set_id_map w pid else []), eventPhase e = 2 :=
    phase_ite (phase_set_id_map w pid)
  have h3 : ∀ e ∈ (if w.sandbox_mnt then set_up_tmpfs_cwd else []),
      eventPhase e = 3 :=
    phase_ite phase_sandbox
  have h4 := phase_callbacks w.callbacks
  have h5 : ∀ e ∈ (if w.process.bin ≠ ""
      then [Event.execCall w.process.bin] else []), eventPhase e = 5 :=
    phase_ite (by
      intro e he
      simp only [List.mem_singleton] at he
      subst he
      rfl)
  rw [run_child_fst w pid, run_child_snd w pid]
  set t0 := apply_nsenter w.namespace_nsenter with ht0
  set t1 := apply_unshare w.namespace_unshare with ht1
  set t2 := (if w.uid_maps.length + w.gid_maps.length > 0
    then set_id_map w pid else []) with ht2
  set t3 := (if w.sandbox_mnt then set_up_tmpfs_cwd else []) with ht3
  set t4 := w.callbacks.map Event.callbackRun with ht4
  set t5 := (if w.process.bin ≠ ""
    then [Event.execCall w.process.bin] else []) with ht5
  refine ⟨?_, ?_, ?_, ?_, fun _ => rfl⟩
  · have b01 : ∀ e ∈ t0 ++ t1, eventPhase e ≤ 1 :=
      phase_le_append (phase_le_of_eq h0 (by omega))
        (phase_le_of_eq h1 (by omega))
    have q01 : (t0 ++ t1).Pairwise (fun a b => eventPhase a ≤ eventPhase b) :=
      pairwise_phase_append 1 (phase_le_of_eq h0 (by omega))
        (phase_ge_of_eq h1 (by omega))
        (pairwise_phase_const h0) (pairwise_phase_const h1)
    have b02 : ∀ e ∈ t0 ++ t1 ++ t2, eventPhase e ≤ 2 :=
      phase_le_append (fun e he => le_trans (b01 e he) (by omega))
        (phase_le_of_eq h2 (by omega))
    have q02 : (t0 ++ t1 ++ t2).Pairwise
        (fun a b => eventPhase a ≤ eventPhase b) :=
      pairwise_phase_append 2 (fun e he => le_trans (b01 e he) (by omega))
        (phase_ge_of_eq h2 (by omega)) q01 (pairwise_phase_const h2)
    have b03 : ∀ e ∈ t0 ++ t1 ++ t2 ++ t3, eventPhase e ≤ 3 :=
      phase_le_append (fun e he => le_trans (b02 e he) (by omega))
        (phase_le_of_eq h3 (by omega))
    have q03 : (t0 ++ t1 ++ t2 ++ t3).Pairwise
        (fun a b => eventPhase a ≤ eventPhase b) :=
      pairwise_phase_append 3 (fun e he => le_trans (b02 e he) (by omega))
        (phase_ge_of_eq h3 (by omega)) q02 (pairwise_phase_const h3)
    have b04 : ∀ e ∈ t0 ++ t1 ++ t2 ++ t3 ++ t4, eventPhase e ≤ 4 :=
      phase_le_append (fun e he => le_trans (b03 e he) (by omega))
        (phase_le_of_eq h4 (by omega))
    have q04 : (t0 ++ t1 ++ t2 ++ t3 ++ t4).Pairwise
        (fun a b => eventPhase a ≤ eventPhase b) :=
      pairwise_phase_append 4 (fun e he => le_trans (b03 e he) (by omega))
        (phase_ge_of_eq h4 (by omega)) q03 (pairwise_phase_const h4)
    exact pairwise_phase_append 5 (fun e he => le_trans (b04 e he) (by omega))
      (phase_ge_of_eq h5 (by omega)) q04 (pairwise_phase_const h5)
  · constructor
    · rintro ⟨e, he, hph⟩
      by_contra hlen
      simp only [List.mem_append] at he
      rcases he with ((((h | h) | h) | h) | h) | h
      · have := h0 e h; omega
      · have := h1 e h; omega
      · rw [ht2, if_neg hlen] at h
        exact absurd h (List.not_mem_nil e)
      · have := h3 e h; omega
      · have := h4 e h; omega
      · have := h5 e h; omega
    · intro hlen
      refine ⟨Event.writeFile (setgroupsPath pid) "deny", ?_, rfl⟩
      simp only [List.mem_append]
      left; left; left; right
      rw [ht2, if_pos hlen]
      simp [set_id_map]
  · constructor
    · rintro ⟨e, he, hph⟩
      by_contra hsand
      simp only [List.mem_append] at he
      rcases he with ((((h | h) | h) | h) | h) | h
      · have := h0 e h; omega
      · have := h1 e h; omega
      · have := h2 e h; omega
      · rw [ht3, if_neg hsand] at h
        exact absurd h (List.not_mem_nil e)
      · have := h4 e h; omega
      · have := h5 e h; omega
    · intro hsand
      refine ⟨Event.changeMountCall "/", ?_, rfl⟩
      simp only [List.mem_append]
      left; left; right
      rw [ht3, if_pos hsand]
      simp [set_up_tmpfs_cwd]
  · constructor
    · rintro ⟨e, he, hph⟩
      by_contra hbin
      simp only [List.mem_append] at he
      rcases he with ((((h | h) | h) | h) | h) | h
      · have := h0 e h; omega
      · have := h1 e h; omega
      · have := h2 e h; omega
      · have := h3 e h; omega
      · have := h4 e h; omega
      · rw [ht5, if_neg (fun hne => hne hbin)] at h
        exact absurd h (List.not_mem_nil e)
    · intro hbin
      refine ⟨Event.execCall w.process.bin, ?_, rfl⟩
      simp only [List.mem_append]
      right
      rw [ht5, if_pos hbin]
      simp

/-- Concrete configuration exercising every bootstrap step: one join
directive, two create directives, a uid mapping, the sandbox flag, one
callable and an executable. -/
def wC5 : WrapInner :=
  { process :=
      { bin := "/bin/sh", args := ["-c", "exit 25"], cwd := Option.none,
        env := [], env_no_inheriting := false },
    uid_maps := [{ container_id := 1000, host_id := 1000, size := 1 }],
    gid_maps := [],
    callbacks := [16],
    namespace_nsenter :=
      { user := NamespaceItem.enter 5, mount := NamespaceItem.none,
        cgroup := NamespaceItem.none, uts := NamespaceItem.none,
        ipc := NamespaceItem.none, pid := NamespaceItem.none,
        network := NamespaceItem.none },
    namespace_unshare :=
      { user := NamespaceItem.unshare, mount := NamespaceItem.unshare,
        cgroup := NamespaceItem.none, uts := NamespaceItem.none,
        ipc := NamespaceItem.none, pid := NamespaceItem.none,
        network := NamespaceItem.none },
    sandbox_mnt := true }

theorem run_child_step_order_witness :
    joinOnly wC5.namespace_nsenter ∧ createOnly wC5.namespace_unshare ∧
    ((run_child wC5 1).1.Pairwise (fun a b => eventPhase a ≤ eventPhase b) ∧
     ((∃ e ∈ (run_child wC5 1).1, eventPhase e = 2) ↔
       0 < wC5.uid_maps.length + wC5.gid_maps.length) ∧
     ((∃ e ∈ (run_child wC5 1).1, eventPhase e = 3) ↔
       wC5.sandbox_mnt = true) ∧
     ((∃ e ∈ (run_child wC5 1).1, eventPhase e = 5) ↔
       wC5.process.bin ≠ "") ∧
     (wC5.process.bin = "" → (run_child wC5 1).2 = wC5.callbacks.getLastD 0)) :=
  ⟨by decide, by decide, run_child_step_order wC5 1 (by decide) (by decide)⟩

end Nswrap
